import Mathlib

set_option autoImplicit false

/- Shallow embedding of the retention-and-hold lifecycle subsystem of the
   storage samples: bucket retention policies (set/get/remove/lock), object
   hold flags (event-based and temporary), the pure retention gate, and the
   metageneration-preconditioned compare-and-swap update discipline against
   the backing store.  Durations and timestamps are modelled as Int
   (Go time.Duration / time.Time nanoseconds); version counters as Int. -/

structure RetentionPolicy where
  retentionPeriod : Int
  effectiveTime : Int
  isLocked : Bool
  deriving DecidableEq

structure BucketAttrs where
  name : String
  metaGeneration : Int
  retentionPolicy : Option RetentionPolicy
  defaultEventBasedHold : Bool
  deriving DecidableEq

structure ObjectAttrs where
  name : String
  generation : Int
  metageneration : Int
  eventBasedHold : Bool
  temporaryHold : Bool
  creationTime : Int
  contentType : String
  deriving DecidableEq

/- Error taxonomy of the store and of the policy layer (spec §7).  Local
   InvalidArgument validation is not modelled: no sample under src/ performs
   it and no claim depends on it. -/

inductive StoreError where
  | PreconditionFailed
  | NotFound
  | PolicyLocked
  | NoPolicySet
  deriving DecidableEq

/- The retention gate. -/

inductive DenyReason where
  | EventBasedHoldActive
  | TemporaryHoldActive
  | RetentionPeriodNotElapsed
  deriving DecidableEq

inductive GateDecision where
  | allow
  | deny (reason : DenyReason)
  deriving DecidableEq

/-- Modelled from the spec: the pure RetentionGate decision function
`CanDelete(object, bucketPolicy, now)` of §4.3.  It is absent from the sample
sources, which only exercise its effect through the backend (the test helper
`cleanBucket` must release both hold flags of an object before it can delete
it). -/
def CanDelete (object : ObjectAttrs) (bucketPolicy : Option RetentionPolicy)
    (now : Int) : GateDecision :=
  if object.eventBasedHold then .deny .EventBasedHoldActive
  else if object.temporaryHold then .deny .TemporaryHoldActive
  else
    match bucketPolicy with
    | some policy =>
        if now < object.creationTime + policy.retentionPeriod then
          .deny .RetentionPeriodNotElapsed
        else .allow
    | none => .allow

/- Store calls and preconditions, used to record the requests a sample
   function issues against the backend. -/

inductive Precond where
  | unconditional
  | metagenMatch (m : Int)
  deriving DecidableEq

structure ObjectAttrsToUpdate where
  eventBasedHold : Option Bool := none
  temporaryHold : Option Bool := none
  deriving DecidableEq

structure BucketAttrsToUpdate where
  defaultEventBasedHold : Option Bool := none
  deriving DecidableEq

inductive StoreCall where
  | bucketGetAttrs
  | bucketLockRP (precond : Precond)
  | bucketUpdate (precond : Precond)
  | objUpdate (name : String) (u : ObjectAttrsToUpdate) (precond : Precond)
  | objCopy (src dst : String)
  | objDelete (name : String)
  deriving DecidableEq

/-- An object metadata update applies exactly the fields that are explicitly
set in the ObjectAttrsToUpdate delta (Go optional semantics: an unset field
means no change) and bumps the object's metageneration. -/
def applyObjectUpdate (o : ObjectAttrs) (u : ObjectAttrsToUpdate) : ObjectAttrs :=
  { o with
    metageneration := o.metageneration + 1
    eventBasedHold := u.eventBasedHold.getD o.eventBasedHold
    temporaryHold := u.temporaryHold.getD o.temporaryHold }

/-- A bucket metadata update applies exactly the explicitly set fields of the
delta and bumps the bucket's metageneration; all other attributes, the
retention policy included, are untouched. -/
def applyBucketUpdate (b : BucketAttrs) (u : BucketAttrsToUpdate) : BucketAttrs :=
  { b with
    metaGeneration := b.metaGeneration + 1
    defaultEventBasedHold := u.defaultEventBasedHold.getD b.defaultEventBasedHold }

/- Backend compare-and-swap primitives.  The backing store is an external
   collaborator of the samples; its contract is taken from spec §4.4 and the
   operation descriptions of §4.1. -/

/-- Modelled from the spec: the backend applying a SetRetentionPolicy delta
under a metageneration precondition (§4.1, §4.4).  The precondition is checked
at the instant of application; a locked policy rejects any decrease of the
current retention period with PolicyLocked. -/
def backendSetRetentionPolicy (b : BucketAttrs) (precond period : Int) :
    Except StoreError BucketAttrs :=
  if precond ≠ b.metaGeneration then .error .PreconditionFailed
  else
    match b.retentionPolicy with
    | some pol =>
        if pol.isLocked ∧ period < pol.retentionPeriod then .error .PolicyLocked
        else
          .ok { b with
                metaGeneration := b.metaGeneration + 1
                retentionPolicy := some { pol with retentionPeriod := period } }
    | none =>
        .ok { b with
              metaGeneration := b.metaGeneration + 1
              retentionPolicy :=
                some { retentionPeriod := period, effectiveTime := 0, isLocked := false } }

/-- Modelled from the spec: the backend clearing the retention policy under a
metageneration precondition; a locked policy can never be removed (§4.1). -/
def backendRemoveRetentionPolicy (b : BucketAttrs) (precond : Int) :
    Except StoreError BucketAttrs :=
  if precond ≠ b.metaGeneration then .error .PreconditionFailed
  else
    match b.retentionPolicy with
    | some pol =>
        if pol.isLocked then .error .PolicyLocked
        else
          .ok { b with
                metaGeneration := b.metaGeneration + 1
                retentionPolicy := none }
    | none =>
        .ok { b with
              metaGeneration := b.metaGeneration + 1
              retentionPolicy := none }

/-- Modelled from the spec: the backend locking the retention policy under a
metageneration precondition; with no policy set it fails with NoPolicySet, on
success it stamps effectiveTime and bumps the metageneration (§4.1). -/
def backendLockRetentionPolicy (b : BucketAttrs) (precond now : Int) :
    Except StoreError BucketAttrs :=
  if precond ≠ b.metaGeneration then .error .PreconditionFailed
  else
    match b.retentionPolicy with
    | none => .error .NoPolicySet
    | some pol =>
        .ok { b with
              metaGeneration := b.metaGeneration + 1
              retentionPolicy :=
                some { pol with isLocked := true, effectiveTime := now } }

/- Controller operations.  Those present under src/ are translated from the
   sample sources (lockRetentionPolicy, releaseEventBasedHold, moveFile); the
   others are called only by the tests and are modelled from the spec. -/

/-- Modelled from the spec: SetRetentionPolicy reads the current attributes
and submits the retention-period delta with the metageneration precondition
from that read (§4.1); the sample of the same name is not among the sources,
only its test caller is. -/
def setRetentionPolicy (b : BucketAttrs) (period : Int) : Except StoreError BucketAttrs :=
  backendSetRetentionPolicy b b.metaGeneration period

/-- Modelled from the spec: RemoveRetentionPolicy reads the current attributes
and submits the clearing delta with the metageneration precondition from that
read (§4.1); the sample of the same name is not among the sources. -/
def removeRetentionPolicy (b : BucketAttrs) : Except StoreError BucketAttrs :=
  backendRemoveRetentionPolicy b b.metaGeneration

/-- Modelled from the spec: GetRetentionPolicy is a pure read returning the
bucket's policy with a present/absent indicator (§4.1); the sample of the same
name is not among the sources, only its test caller, which distinguishes a nil
policy from a present one (buckets_test.go, TestBucketLock). -/
def getRetentionPolicy (b : BucketAttrs) : Option RetentionPolicy :=
  b.retentionPolicy

structure LockReport where
  state : BucketAttrs
  reportedEffectiveTime : Int
  deriving DecidableEq

/-- Translation of lockRetentionPolicy (src/storage/buckets/lockRetentionPolicy.go):
read the bucket attributes, lock the retention policy under a
MetagenerationMatch condition built from that read, then read the attributes
again and report the re-read policy's EffectiveTime.  Reads are modelled as
returning the current state; store errors of the lock step are propagated
verbatim.  The second component records the issued store calls. -/
def lockRetentionPolicy (b : BucketAttrs) (now : Int) :
    Except StoreError LockReport × List StoreCall :=
  let attrs := b
  match backendLockRetentionPolicy b attrs.metaGeneration now with
  | .error e =>
      (.error e, [.bucketGetAttrs, .bucketLockRP (.metagenMatch attrs.metaGeneration)])
  | .ok b2 =>
      let lockedAttrs := b2
      let t :=
        match lockedAttrs.retentionPolicy with
        | some pol => pol.effectiveTime
        | none => 0
      (.ok { state := b2, reportedEffectiveTime := t },
       [.bucketGetAttrs, .bucketLockRP (.metagenMatch attrs.metaGeneration),
        .bucketGetAttrs])

/-- Translation of releaseEventBasedHold (src/storage/objects/releaseEventBasedHold.go):
a single object Update with the delta ObjectAttrsToUpdate\x7bEventBasedHold: false\x7d
and no If() condition, i.e. an unconditional write.  The second component
records the issued store call. -/
def releaseEventBasedHold (objectName : String) (o : ObjectAttrs) :
    ObjectAttrs × List StoreCall :=
  (applyObjectUpdate o { eventBasedHold := some false },
   [.objUpdate objectName { eventBasedHold := some false } .unconditional])

/-- Modelled from the spec: SetObjectEventBasedHold(enabled=true) of §4.2; the
sample setEventBasedHold is not among the sources.  Only the applied delta is
modelled. -/
def setEventBasedHold (o : ObjectAttrs) : ObjectAttrs :=
  applyObjectUpdate o { eventBasedHold := some true }

/-- Modelled from the spec: SetObjectTemporaryHold(enabled=true) of §4.2; the
sample setTemporaryHold is not among the sources.  Only the applied delta is
modelled. -/
def setTemporaryHold (o : ObjectAttrs) : ObjectAttrs :=
  applyObjectUpdate o { temporaryHold := some true }

/-- Modelled from the spec: SetObjectTemporaryHold(enabled=false) of §4.2; the
sample releaseTemporaryHold is not among the sources.  Only the applied delta
is modelled. -/
def releaseTemporaryHold (o : ObjectAttrs) : ObjectAttrs :=
  applyObjectUpdate o { temporaryHold := some false }

/-- Modelled from the spec: SetDefaultEventBasedHold of §4.2; the samples
enableDefaultEventBasedHold / disableDefaultEventBasedHold are not among the
sources.  Only the applied delta is modelled. -/
def setDefaultEventBasedHold (b : BucketAttrs) (enabled : Bool) : BucketAttrs :=
  applyBucketUpdate b { defaultEventBasedHold := some enabled }

/- A step function over the bucket operations, taking the state reached after
   an attempted operation (on error the compare-and-swap applied nothing, so
   the state is unchanged). -/

inductive BucketOp where
  | setRP (period : Int)
  | removeRP
  | lockRP (now : Int)
  | setDefaultHold (enabled : Bool)

def bucketStep (b : BucketAttrs) : BucketOp → BucketAttrs
  | .setRP period =>
      match setRetentionPolicy b period with
      | .ok b2 => b2
      | .error _ => b
  | .removeRP =>
      match removeRetentionPolicy b with
      | .ok b2 => b2
      | .error _ => b
  | .lockRP now =>
      match (lockRetentionPolicy b now).1 with
      | .ok r => r.state
      | .error _ => b
  | .setDefaultHold enabled => setDefaultEventBasedHold b enabled

/-- A bucket is locked when it carries a retention policy whose isLocked flag
is set. -/
def bucketLocked (b : BucketAttrs) : Bool :=
  match b.retentionPolicy with
  | some pol => pol.isLocked
  | none => false

/- moveFile and its little object store. -/

structure ObjStore where
  objects : List (String × String)
  deriving DecidableEq

def lookupObject (s : ObjStore) (n : String) : Option String :=
  (s.objects.find? (fun p => p.1 == n)).map (fun p => p.2)

def setObject (s : ObjStore) (n v : String) : ObjStore :=
  { objects := (n, v) :: s.objects.filter (fun p => p.1 != n) }

def removeObject (s : ObjStore) (n : String) : ObjStore :=
  { objects := s.objects.filter (fun p => p.1 != n) }

inductive MoveError where
  | copierRun (dstName object : String)
  | deleteStep (object : String)
  deriving DecidableEq

/-- Translation of moveFile (src/storage/objects/moveFile.go): compute
dstName = object + "-rename", run the copier from the source to the
destination, and only if the copy succeeded issue the delete of the source.
Each fallible backend step carries a failure oracle; a failed step leaves the
store unchanged, and a copy also fails when the source object is absent.  The
last component records the issued store calls. -/
def moveFile (s : ObjStore) (object : String) (copyFails deleteFails : Bool) :
    Except MoveError Unit × ObjStore × List StoreCall :=
  let dstName := object ++ "-rename"
  match lookupObject s object, copyFails with
  | some v, false =>
      let s1 := setObject s dstName v
      if deleteFails then
        (.error (.deleteStep object), s1, [.objCopy object dstName, .objDelete object])
      else
        (.ok (), removeObject s1 object, [.objCopy object dstName, .objDelete object])
  | _, _ =>
      (.error (.copierRun dstName object), s, [.objCopy object dstName])

/- Concrete instances used by witnesses and counterexamples. -/

def c1Obj : ObjectAttrs :=
  { name := "foo.txt", generation := 1, metageneration := 1,
    eventBasedHold := true, temporaryHold := false, creationTime := 0,
    contentType := "text/plain" }

def c1Pol : RetentionPolicy :=
  { retentionPeriod := 300, effectiveTime := 0, isLocked := false }

/-- C1: CanDelete returns allow exactly when neither hold flag is set and the
policy is absent or the retention period has elapsed; otherwise it denies with
the reasons determined in order: EventBasedHoldActive, else
TemporaryHoldActive, else RetentionPeriodNotElapsed; in particular a set hold
flag forces deny regardless of retention-period state. -/
theorem canDelete_characterization (o : ObjectAttrs) (p : Option RetentionPolicy)
    (now : Int) :
    (CanDelete o p now = .allow ↔
      (o.eventBasedHold = false ∧ o.temporaryHold = false ∧
        (p = none ∨ ∃ pol, p = some pol ∧ o.creationTime + pol.retentionPeriod ≤ now)))
    ∧ (o.eventBasedHold = true → CanDelete o p now = .deny .EventBasedHoldActive)
    ∧ (o.eventBasedHold = false → o.temporaryHold = true →
        CanDelete o p now = .deny .TemporaryHoldActive)
    ∧ (∀ pol, o.eventBasedHold = false → o.temporaryHold = false → p = some pol →
        now < o.creationTime + pol.retentionPeriod →
        CanDelete o p now = .deny .RetentionPeriodNotElapsed) := by
  refine ⟨?_, ?_, ?_, ?_⟩
  · cases hE : o.eventBasedHold <;> cases hT : o.temporaryHold <;> cases p <;>
      simp [CanDelete, hE, hT]
  · intro hE
    simp [CanDelete, hE]
  · intro hE hT
    simp [CanDelete, hE, hT]
  · intro pol hE hT hp hlt
    simp [CanDelete, hE, hT, hp, hlt]

/-- Witness for C1 at a concrete input: an object under event-based hold is
denied for that reason even though its retention period has elapsed. -/
theorem canDelete_characterization_witness :
    CanDelete c1Obj (some c1Pol) 1000 = .deny .EventBasedHoldActive :=
  (canDelete_characterization c1Obj (some c1Pol) 1000).2.1 rfl

def c5Bucket : BucketAttrs :=
  { name := "bucket", metaGeneration := 4, retentionPolicy := none,
    defaultEventBasedHold := false }

/-- C5: on a bucket with no retention policy, lockRetentionPolicy fails with
the NoPolicySet error surfaced to the caller rather than succeeding or
returning some other error. -/
theorem lockRetentionPolicy_no_policy (b : BucketAttrs) (now : Int)
    (h : b.retentionPolicy = none) :
    (lockRetentionPolicy b now).1 = .error .NoPolicySet := by
  simp [lockRetentionPolicy, backendLockRetentionPolicy, h]

/-- Witness for C5 at a concrete policy-free bucket. -/
theorem lockRetentionPolicy_no_policy_witness :
    (lockRetentionPolicy c5Bucket 3).1 = .error .NoPolicySet :=
  lockRetentionPolicy_no_policy c5Bucket 3 rfl

def c8ZeroPolicyBucket : BucketAttrs :=
  { name := "bucket", metaGeneration := 1,
    retentionPolicy := some { retentionPeriod := 0, effectiveTime := 0, isLocked := false },
    defaultEventBasedHold := false }

def c8NoPolicyBucket : BucketAttrs :=
  { c8ZeroPolicyBucket with retentionPolicy := none }

/-- C8: getRetentionPolicy carries a present/absent indicator: an absent
policy is reported as none, a present policy is reported as some of it (hence
never as none), and a present policy with retentionPeriod 0 is distinguished
from absence, as at the two concrete buckets. -/
theorem getRetentionPolicy_distinguishes (b : BucketAttrs) (pol : RetentionPolicy) :
    (b.retentionPolicy = none → getRetentionPolicy b = none)
    ∧ (b.retentionPolicy = some pol →
        getRetentionPolicy b = some pol ∧ getRetentionPolicy b ≠ none)
    ∧ getRetentionPolicy c8ZeroPolicyBucket ≠ getRetentionPolicy c8NoPolicyBucket
    ∧ (∃ p, getRetentionPolicy c8ZeroPolicyBucket = some p ∧ p.retentionPeriod = 0) := by
  refine ⟨fun h => h, fun h => ⟨h, by simp [getRetentionPolicy, h]⟩, by decide, ?_⟩
  exact ⟨_, rfl, rfl⟩

/-- Witness for C8 at concrete buckets: absence maps to none, a zero-period
policy maps to a present value. -/
theorem getRetentionPolicy_distinguishes_witness :
    getRetentionPolicy c8NoPolicyBucket = none
    ∧ getRetentionPolicy c8ZeroPolicyBucket
        = some { retentionPeriod := 0, effectiveTime := 0, isLocked := false } :=
  ⟨(getRetentionPolicy_distinguishes c8NoPolicyBucket c1Pol).1 rfl,
   ((getRetentionPolicy_distinguishes c8ZeroPolicyBucket
      { retentionPeriod := 0, effectiveTime := 0, isLocked := false }).2.1 rfl).1⟩

def c10Store : ObjStore := { objects := [("foo.txt", "Hello"), ("bar.txt", "world")] }

/-- C10: whenever the copy step of moveFile returns an error (the copier
failing or the source being absent), moveFile returns the copier error, the
issued calls contain no delete, and the source object is left unchanged. -/
theorem moveFile_copy_failure (s : ObjStore) (object : String)
    (copyFails deleteFails : Bool)
    (h : copyFails = true ∨ lookupObject s object = none) :
    moveFile s object copyFails deleteFails
      = (.error (.copierRun (object ++ "-rename") object), s,
         [.objCopy object (object ++ "-rename")])
    ∧ (∀ n, StoreCall.objDelete n ∉ (moveFile s object copyFails deleteFails).2.2)
    ∧ lookupObject (moveFile s object copyFails deleteFails).2.1 object
        = lookupObject s object := by
  have hm : moveFile s object copyFails deleteFails
      = (.error (.copierRun (object ++ "-rename") object), s,
         [.objCopy object (object ++ "-rename")]) := by
    rcases h with h | h
    · subst h
      cases hl : lookupObject s object <;> simp [moveFile, hl]
    · cases copyFails <;> simp [moveFile, h]
  refine ⟨hm, ?_, ?_⟩
  · intro n
    rw [hm]
    simp
  · rw [hm]

/-- Witness for C10 at a concrete store whose copier fails. -/
theorem moveFile_copy_failure_witness :
    moveFile c10Store "foo.txt" true false
      = (.error (.copierRun "foo.txt-rename" "foo.txt"), c10Store,
         [.objCopy "foo.txt" "foo.txt-rename"])
    ∧ lookupObject (moveFile c10Store "foo.txt" true false).2.1 "foo.txt"
        = lookupObject c10Store "foo.txt" :=
  ⟨(moveFile_copy_failure c10Store "foo.txt" true false (Or.inl rfl)).1,
   (moveFile_copy_failure c10Store "foo.txt" true false (Or.inl rfl)).2.2⟩

/- C2: the precondition discipline of the mutation paths under src/. -/

def precondSupplied : Precond → Bool
  | .unconditional => false
  | .metagenMatch _ => true

def isHoldOrRetentionMutation : StoreCall → Bool
  | .bucketLockRP _ => true
  | .bucketUpdate _ => true
  | .objUpdate _ _ _ => true
  | .bucketGetAttrs => false
  | .objCopy _ _ => false
  | .objDelete _ => false

def callPrecondSupplied : StoreCall → Bool
  | .bucketLockRP p => precondSupplied p
  | .bucketUpdate p => precondSupplied p
  | .objUpdate _ _ p => precondSupplied p
  | .bucketGetAttrs => true
  | .objCopy _ _ => true
  | .objDelete _ => true

def mutationsPreconditioned (tr : List StoreCall) : Bool :=
  tr.all (fun c => !(isHoldOrRetentionMutation c) || callPrecondSupplied c)

/-- The claim that every retention/hold mutation issued by the sample mutation
paths carries a generation/metageneration precondition, with no unconditional
write. -/
def allMutationPathsPreconditioned : Prop :=
  (∀ (b : BucketAttrs) (now : Int),
    mutationsPreconditioned (lockRetentionPolicy b now).2 = true)
  ∧ (∀ (objectName : String) (o : ObjectAttrs),
    mutationsPreconditioned (releaseEventBasedHold objectName o).2 = true)

def c2Obj : ObjectAttrs :=
  { name := "foo.txt", generation := 2, metageneration := 1,
    eventBasedHold := true, temporaryHold := false, creationTime := 0,
    contentType := "text/plain" }

/-- C2 counterexample: releaseEventBasedHold issues its hold mutation as an
unconditional object update carrying no generation/metageneration
precondition, refuting that every mutation path supplies one. -/
theorem releaseEventBasedHold_bypasses_precondition :
    ¬ allMutationPathsPreconditioned := by
  intro h
  have h2 := h.2 "foo.txt" c2Obj
  have hf : mutationsPreconditioned (releaseEventBasedHold "foo.txt" c2Obj).2 = false := rfl
  rw [hf] at h2
  exact Bool.false_ne_true h2

/-- C2 amended: the bucket-level mutation of lockRetentionPolicy supplies the
metageneration observed by its preceding read as the update precondition, but
the object-level hold mutation of releaseEventBasedHold is an unconditional
update with no precondition, so not every mutation path routes through the
precondition-checked primitive. -/
theorem lockPreconditioned_releaseUnconditional (b : BucketAttrs) (now : Int)
    (objectName : String) (o : ObjectAttrs) :
    ((lockRetentionPolicy b now).2.filter isHoldOrRetentionMutation
        = [.bucketLockRP (.metagenMatch b.metaGeneration)])
    ∧ ((releaseEventBasedHold objectName o).2
        = [.objUpdate objectName { eventBasedHold := some false } .unconditional]) := by
  constructor
  · cases hb : backendLockRetentionPolicy b b.metaGeneration now <;>
      simp [lockRetentionPolicy, hb, List.filter, isHoldOrRetentionMutation]
  · rfl

/-- Helper: while a bucket's policy is locked, any attempted bucket operation
leaves a locked policy in place and never decreases the retention period. -/
theorem bucketStep_locked_mono (b : BucketAttrs) (pol : RetentionPolicy) (op : BucketOp)
    (hp : b.retentionPolicy = some pol) (hl : pol.isLocked = true) :
    ∃ pol2, (bucketStep b op).retentionPolicy = some pol2 ∧ pol2.isLocked = true
      ∧ pol.retentionPeriod ≤ pol2.retentionPeriod := by
  cases op with
  | setRP period =>
      by_cases hlt : period < pol.retentionPeriod
      · have he : setRetentionPolicy b period = .error .PolicyLocked := by
          simp [setRetentionPolicy, backendSetRetentionPolicy, hp, hl, hlt]
        exact ⟨pol, by simp [bucketStep, he, hp], hl, le_refl _⟩
      · have he : setRetentionPolicy b period
            = .ok { b with
                    metaGeneration := b.metaGeneration + 1
                    retentionPolicy := some { pol with retentionPeriod := period } } := by
          simp [setRetentionPolicy, backendSetRetentionPolicy, hp, hl, hlt]
        exact ⟨{ pol with retentionPeriod := period }, by simp [bucketStep, he],
               hl, not_lt.mp hlt⟩
  | removeRP =>
      have he : removeRetentionPolicy b = .error .PolicyLocked := by
        simp [removeRetentionPolicy, backendRemoveRetentionPolicy, hp, hl]
      exact ⟨pol, by simp [bucketStep, he, hp], hl, le_refl _⟩
  | lockRP now =>
      have hb : backendLockRetentionPolicy b b.metaGeneration now
          = .ok { b with
                  metaGeneration := b.metaGeneration + 1
                  retentionPolicy := some { pol with
                                            isLocked := true
                                            effectiveTime := now } } := by
        simp [backendLockRetentionPolicy, hp]
      exact ⟨{ pol with isLocked := true, effectiveTime := now },
             by simp [bucketStep, lockRetentionPolicy, hb], rfl, le_refl _⟩
  | setDefaultHold enabled =>
      exact ⟨pol, by simp [bucketStep, setDefaultEventBasedHold, applyBucketUpdate, hp],
             hl, le_refl _⟩

def c3Start : BucketAttrs :=
  { name := "bucket", metaGeneration := 1,
    retentionPolicy := some { retentionPeriod := 100, effectiveTime := 0, isLocked := false },
    defaultEventBasedHold := false }

def c3Locked : BucketAttrs := bucketStep c3Start (.lockRP 7)

def c3Raised : BucketAttrs := bucketStep c3Locked (.setRP 200)

/-- C3 counterexample: lock the policy at period 100, then raise it to 200
(permitted); the subsequent call with period 150 satisfies
period ≥ lockedPeriod = 100 and still fails with PolicyLocked, refuting that
after a successful lock every SetRetentionPolicy call with
period ≥ lockedPeriod succeeds. -/
theorem setRetentionPolicy_above_lockedPeriod_fails :
    (lockRetentionPolicy c3Start 7).1
      = .ok { state := c3Locked, reportedEffectiveTime := 7 }
    ∧ c3Locked.retentionPolicy
      = some { retentionPeriod := 100, effectiveTime := 7, isLocked := true }
    ∧ setRetentionPolicy c3Locked 200 = .ok c3Raised
    ∧ (100 : Int) ≤ 150
    ∧ setRetentionPolicy c3Raised 150 = .error .PolicyLocked :=
  ⟨rfl, rfl, rfl, by decide, rfl⟩

/-- C3 amended: once the policy is locked, a SetRetentionPolicy call with a
period below the policy's current retention period fails with PolicyLocked and
a call with a period at or above the current period succeeds; isLocked is
monotone under every bucket operation, and while locked the retention period
never decreases and the policy is never removed. -/
theorem lockedPolicy_invariants (b : BucketAttrs) (pol : RetentionPolicy)
    (period : Int) (op : BucketOp)
    (hp : b.retentionPolicy = some pol) (hl : pol.isLocked = true) :
    (period < pol.retentionPeriod → setRetentionPolicy b period = .error .PolicyLocked)
    ∧ (pol.retentionPeriod ≤ period →
        setRetentionPolicy b period
          = .ok { b with
                  metaGeneration := b.metaGeneration + 1
                  retentionPolicy := some { pol with retentionPeriod := period } })
    ∧ bucketLocked (bucketStep b op) = true
    ∧ (∃ pol2, (bucketStep b op).retentionPolicy = some pol2 ∧ pol2.isLocked = true
        ∧ pol.retentionPeriod ≤ pol2.retentionPeriod) := by
  obtain ⟨pol2, h2, hl2, hle⟩ := bucketStep_locked_mono b pol op hp hl
  refine ⟨?_, ?_, by simp [bucketLocked, h2, hl2], ⟨pol2, h2, hl2, hle⟩⟩
  · intro hlt
    simp [setRetentionPolicy, backendSetRetentionPolicy, hp, hl, hlt]
  · intro hge
    simp [setRetentionPolicy, backendSetRetentionPolicy, hp, hl, not_lt.mpr hge]

def c3WitnessBucket : BucketAttrs :=
  { name := "bucket", metaGeneration := 9,
    retentionPolicy := some { retentionPeriod := 50, effectiveTime := 1, isLocked := true },
    defaultEventBasedHold := false }

/-- Witness for the amended C3 at a concrete locked bucket: a decrease fails
with PolicyLocked and a remove attempt keeps the bucket locked. -/
theorem lockedPolicy_invariants_witness :
    setRetentionPolicy c3WitnessBucket 10 = .error .PolicyLocked
    ∧ bucketLocked (bucketStep c3WitnessBucket .removeRP) = true :=
  ⟨(lockedPolicy_invariants c3WitnessBucket
      { retentionPeriod := 50, effectiveTime := 1, isLocked := true } 10 .removeRP
      rfl rfl).1 (by decide),
   (lockedPolicy_invariants c3WitnessBucket
      { retentionPeriod := 50, effectiveTime := 1, isLocked := true } 10 .removeRP
      rfl rfl).2.2.1⟩

/-- C4: whenever lockRetentionPolicy succeeds it has issued a fresh attribute
read after the lock update, and the policy it reports is the one observed by
that re-read, carrying the backend-stamped effectiveTime. -/
theorem lockRetentionPolicy_fresh_reread (b : BucketAttrs) (now : Int)
    (r : LockReport) (tr : List StoreCall)
    (h : lockRetentionPolicy b now = (.ok r, tr)) :
    tr = [.bucketGetAttrs, .bucketLockRP (.metagenMatch b.metaGeneration), .bucketGetAttrs]
    ∧ ∃ pol, r.state.retentionPolicy = some pol ∧ pol.isLocked = true
      ∧ pol.effectiveTime = now ∧ r.reportedEffectiveTime = now := by
  cases hp : b.retentionPolicy with
  | none =>
      have hb : backendLockRetentionPolicy b b.metaGeneration now = .error .NoPolicySet := by
        simp [backendLockRetentionPolicy, hp]
      simp only [lockRetentionPolicy] at h
      rw [hb] at h
      simp at h
  | some pol =>
      have hb : backendLockRetentionPolicy b b.metaGeneration now
          = .ok { b with
                  metaGeneration := b.metaGeneration + 1
                  retentionPolicy := some { pol with
                                            isLocked := true
                                            effectiveTime := now } } := by
        simp [backendLockRetentionPolicy, hp]
      simp only [lockRetentionPolicy] at h
      rw [hb] at h
      simp at h
      obtain ⟨hr, htr⟩ := h
      subst htr
      refine ⟨rfl, { pol with isLocked := true, effectiveTime := now }, ?_, rfl, rfl, ?_⟩
      · rw [← hr]
      · rw [← hr]

def c4Bucket : BucketAttrs :=
  { name := "bucket", metaGeneration := 2,
    retentionPolicy := some { retentionPeriod := 60, effectiveTime := 0, isLocked := false },
    defaultEventBasedHold := false }

def c4Report : LockReport :=
  { state := { name := "bucket", metaGeneration := 3,
               retentionPolicy := some { retentionPeriod := 60, effectiveTime := 11,
                                         isLocked := true },
               defaultEventBasedHold := false },
    reportedEffectiveTime := 11 }

/-- Witness for C4 at a concrete bucket that locks successfully. -/
theorem lockRetentionPolicy_fresh_reread_witness :
    (lockRetentionPolicy c4Bucket 11).2
      = [.bucketGetAttrs, .bucketLockRP (.metagenMatch 2), .bucketGetAttrs] :=
  (lockRetentionPolicy_fresh_reread c4Bucket 11 c4Report
    (lockRetentionPolicy c4Bucket 11).2 rfl).1

/-- C6: RemoveRetentionPolicy on a locked bucket always fails with
PolicyLocked and leaves the policy in place — the Locked → Unset transition
never occurs under any operation — while on any unlocked bucket it clears the
policy. -/
theorem removeRetentionPolicy_locked_fails (b : BucketAttrs) (pol : RetentionPolicy)
    (op : BucketOp) :
    (b.retentionPolicy = some pol → pol.isLocked = true →
      removeRetentionPolicy b = .error .PolicyLocked
      ∧ bucketStep b .removeRP = b
      ∧ (bucketStep b op).retentionPolicy ≠ none)
    ∧ (b.retentionPolicy = some pol → pol.isLocked = false →
        removeRetentionPolicy b
          = .ok { b with metaGeneration := b.metaGeneration + 1, retentionPolicy := none })
    ∧ (b.retentionPolicy = none →
        removeRetentionPolicy b
          = .ok { b with metaGeneration := b.metaGeneration + 1, retentionPolicy := none }) := by
  refine ⟨?_, ?_, ?_⟩
  · intro hp hl
    have he : removeRetentionPolicy b = .error .PolicyLocked := by
      simp [removeRetentionPolicy, backendRemoveRetentionPolicy, hp, hl]
    obtain ⟨pol2, h2, hl2, hle⟩ := bucketStep_locked_mono b pol op hp hl
    exact ⟨he, by simp [bucketStep, he], by simp [h2]⟩
  · intro hp hl
    simp [removeRetentionPolicy, backendRemoveRetentionPolicy, hp, hl]
  · intro hp
    simp [removeRetentionPolicy, backendRemoveRetentionPolicy, hp]

def c6Locked : BucketAttrs :=
  { name := "bucket", metaGeneration := 5,
    retentionPolicy := some { retentionPeriod := 30, effectiveTime := 2, isLocked := true },
    defaultEventBasedHold := false }

def c6Unlocked : BucketAttrs :=
  { name := "bucket", metaGeneration := 6,
    retentionPolicy := some { retentionPeriod := 30, effectiveTime := 0, isLocked := false },
    defaultEventBasedHold := false }

/-- Witness for C6 at concrete buckets: the locked one rejects removal with
PolicyLocked, the unlocked one has its policy cleared. -/
theorem removeRetentionPolicy_locked_fails_witness :
    removeRetentionPolicy c6Locked = .error .PolicyLocked
    ∧ removeRetentionPolicy c6Unlocked
        = .ok { c6Unlocked with metaGeneration := 7, retentionPolicy := none } :=
  ⟨((removeRetentionPolicy_locked_fails c6Locked
      { retentionPeriod := 30, effectiveTime := 2, isLocked := true } .removeRP).1
      rfl rfl).1,
   (removeRetentionPolicy_locked_fails c6Unlocked
      { retentionPeriod := 30, effectiveTime := 0, isLocked := false } .removeRP).2.1
      rfl rfl⟩

/-- C7: each hold setter is a targeted partial update: toggling one hold flag
changes exactly that flag (besides the bumped metageneration version counter),
leaving the other hold flag and every unrelated attribute unchanged; the
bucket-level default-hold setter likewise leaves the retention policy and all
other bucket attributes unchanged. -/
theorem holdSetters_frame (objectName : String) (o : ObjectAttrs)
    (b : BucketAttrs) (enabled : Bool) :
    ((releaseEventBasedHold objectName o).1
        = { o with metageneration := o.metageneration + 1, eventBasedHold := false })
    ∧ (setEventBasedHold o
        = { o with metageneration := o.metageneration + 1, eventBasedHold := true })
    ∧ (setTemporaryHold o
        = { o with metageneration := o.metageneration + 1, temporaryHold := true })
    ∧ (releaseTemporaryHold o
        = { o with metageneration := o.metageneration + 1, temporaryHold := false })
    ∧ (setDefaultEventBasedHold b enabled
        = { b with metaGeneration := b.metaGeneration + 1,
                   defaultEventBasedHold := enabled }) :=
  ⟨rfl, rfl, rfl, rfl, rfl⟩

/-- C9: two SetRetentionPolicy submissions against the same unlocked bucket
both carrying the metageneration of the same read: whichever one the store
applies first succeeds, the other fails with PreconditionFailed, and after the
loser re-reads the fresh metageneration its resubmission succeeds.  The store
is a linearizable single-document compare-and-swap, so a concurrent execution
is an arbitrary serialization of the two applications, covered here by the
generality of p1 and p2. -/
theorem setRetentionPolicy_cas_race (b : BucketAttrs) (p1 p2 : Int)
    (hunlocked : bucketLocked b = false) :
    ∃ b1 b2,
      backendSetRetentionPolicy b b.metaGeneration p1 = .ok b1
      ∧ backendSetRetentionPolicy b1 b.metaGeneration p2 = .error .PreconditionFailed
      ∧ backendSetRetentionPolicy b1 b1.metaGeneration p2 = .ok b2 := by
  have hne : b.metaGeneration ≠ b.metaGeneration + 1 := by omega
  cases hp : b.retentionPolicy with
  | none =>
      refine ⟨{ b with
                metaGeneration := b.metaGeneration + 1
                retentionPolicy := some { retentionPeriod := p1
                                          effectiveTime := 0
                                          isLocked := false } },
              { b with
                metaGeneration := b.metaGeneration + 1 + 1
                retentionPolicy := some { retentionPeriod := p2
                                          effectiveTime := 0
                                          isLocked := false } },
              ?_, ?_, ?_⟩
      · simp [backendSetRetentionPolicy, hp]
      · simp [backendSetRetentionPolicy, hne]
      · simp [backendSetRetentionPolicy]
  | some pol =>
      have hl : pol.isLocked = false := by
        have hbl := hunlocked
        simp [bucketLocked, hp] at hbl
        exact hbl
      refine ⟨{ b with
                metaGeneration := b.metaGeneration + 1
                retentionPolicy := some { pol with retentionPeriod := p1 } },
              { b with
                metaGeneration := b.metaGeneration + 1 + 1
                retentionPolicy := some { pol with retentionPeriod := p2 } },
              ?_, ?_, ?_⟩
      · simp [backendSetRetentionPolicy, hp, hl]
      · simp [backendSetRetentionPolicy, hne]
      · simp [backendSetRetentionPolicy, hl]

def c9Bucket : BucketAttrs :=
  { name := "bucket", metaGeneration := 1,
    retentionPolicy := none,
    defaultEventBasedHold := false }

/-- Witness for C9 at a concrete unlocked bucket and two concrete periods. -/
theorem setRetentionPolicy_cas_race_witness :
    ∃ b1 b2,
      backendSetRetentionPolicy c9Bucket c9Bucket.metaGeneration 300 = .ok b1
      ∧ backendSetRetentionPolicy b1 c9Bucket.metaGeneration 400
          = .error .PreconditionFailed
      ∧ backendSetRetentionPolicy b1 b1.metaGeneration 400 = .ok b2 :=
  setRetentionPolicy_cas_race c9Bucket 300 400 rfl
